import Mathlib

/-!
Shallow embedding of the LaTeX-rendering backend (`backend/app.py`) of the
interactive-latex-workshop repository, together with theorems settling the
frozen claims about it.

External subprocess invocations are modelled by an explicit outcome
environment: each `subprocess.run` call either returns an exit record
(return code, standard output, standard error), raises a timeout
(`subprocess.TimeoutExpired`), or raises a file-not-found style error
(the binary is absent).  The Python `try/except` structure of each
function is embedded by total functions that turn every modelled
exception into the dictionary the corresponding handler returns, so the
Lean functions are total exactly because the Python functions never let
an exception escape.
-/

/-- Outcome record of a completed `subprocess.run` call. -/
structure RunResult where
  returncode : Int
  stdout : String
  stderr : String
deriving DecidableEq

/-- Possible outcomes of one `subprocess.run` call: normal exit,
`subprocess.TimeoutExpired`, or a `FileNotFoundError`-style exception
(binary absent). -/
inductive RunOutcome where
  | exit (r : RunResult)
  | timeout
  | notFound
deriving DecidableEq

/-- Message of a Python `FileNotFoundError` raised by `subprocess.run`
for an absent binary; it names the attempted executable. -/
def notFoundMsg (cmd0 : String) : String :=
  "[Errno 2] No such file or directory: " ++ cmd0

/-- Python `str.strip()` on the character list of a string. -/
def pyStrip (s : String) : String :=
  ⟨((s.data.dropWhile Char.isWhitespace).reverse.dropWhile Char.isWhitespace).reverse⟩

/-- Python `str.endswith(suffix)`. -/
def endsWithStr (s suffix : String) : Bool :=
  List.isSuffixOf suffix.data s.data

/-- The proposition that `sub` occurs as a contiguous substring of `s`. -/
def containsStr (s sub : String) : Prop :=
  sub.data <:+: s.data

instance (s sub : String) : Decidable (containsStr s sub) :=
  inferInstanceAs (Decidable (sub.data <:+: s.data))

/-- `find_command` (app.py:185-196): run `which command`; on exit status 0
return the stripped standard output, otherwise (nonzero status, timeout, or
any exception — the bare `except: pass`) fall back to the bare name. -/
def find_command (whichOutcome : RunOutcome) (command : String) : String :=
  match whichOutcome with
  | .exit r => if r.returncode = 0 then pyStrip r.stdout else command
  | .timeout => command
  | .notFound => command

/-- One external invocation made by `compile_latex`: a compiler pass with
its index, or a bibliography-tool run with the tool's name. -/
inductive Invocation where
  | compilerPass (i : Nat)
  | bibliography (tool : String)
deriving DecidableEq

/-- The dictionary returned by `compile_latex`. -/
structure CompileResult where
  success : Bool
  error : Option String := none
  log : Option String := none
deriving DecidableEq

/-- Environment of external effects for one `compile_latex` call:
the outcome of each `pdflatex` pass by index, the outcome of the single
possible bibliography-tool run, whether `references.bib` exists in the
working directory, and the result of `find_command` for each tool name. -/
structure CompileEnv where
  passOutcome : Nat → RunOutcome
  bibOutcome : RunOutcome
  bibFileExists : Bool
  resolve : String → String

/-- Name of the bibliography tool selected by `use_biblatex`
(app.py:156-161). -/
def bibToolName (use_biblatex : Bool) : String :=
  if use_biblatex then "biber" else "bibtex"

/-- The `for i in range(passes)` loop of `compile_latex` (app.py:135-172),
with the surrounding `try/except` folded in: a pass timeout yields the
timeout dictionary, any other exception yields the `Compilation error`
dictionary, a nonzero pass exit yields the failure dictionary whose log is
that pass's stdout and stderr, and after pass 0 only, if `references.bib`
exists, the bibliography tool runs with its exit status ignored (though
its own timeout or absence still raises into the handlers).  Returns the
list of invocations performed and the result dictionary. -/
def compileLoop (env : CompileEnv) (use_biblatex : Bool) :
    Nat → Nat → List Invocation × CompileResult
  | 0, _ => ([], { success := true })
  | n + 1, i =>
    match env.passOutcome i with
    | .timeout =>
        ([.compilerPass i],
         { success := false, error := some "LaTeX compilation timed out" })
    | .notFound =>
        ([.compilerPass i],
         { success := false,
           error := some ("Compilation error: " ++ notFoundMsg (env.resolve "pdflatex")) })
    | .exit r =>
      if r.returncode ≠ 0 then
        ([.compilerPass i],
         { success := false, error := some "LaTeX compilation failed",
           log := some (r.stdout ++ "\n" ++ r.stderr) })
      else if i = 0 ∧ env.bibFileExists then
        match env.bibOutcome with
        | .timeout =>
            ([.compilerPass i, .bibliography (bibToolName use_biblatex)],
             { success := false, error := some "LaTeX compilation timed out" })
        | .notFound =>
            ([.compilerPass i, .bibliography (bibToolName use_biblatex)],
             { success := false,
               error := some ("Compilation error: " ++
                 notFoundMsg (env.resolve (bibToolName use_biblatex))) })
        | .exit _ =>
            let rest := compileLoop env use_biblatex n (i + 1)
            (.compilerPass i :: .bibliography (bibToolName use_biblatex) :: rest.1, rest.2)
      else
        let rest := compileLoop env use_biblatex n (i + 1)
        (.compilerPass i :: rest.1, rest.2)

/-- `compile_latex` (app.py:130-183).  `passes` is the untyped JSON value
forwarded by `api_compile`, modelled as an integer; Python's
`range(passes)` iterates `max passes 0` times.  `hide_warnings` is
accepted and ignored, as in the source. -/
def compile_latex (env : CompileEnv) (passes : Int) (use_biblatex : Bool)
    (hide_warnings : Bool) : List Invocation × CompileResult :=
  compileLoop env use_biblatex passes.toNat 0

/-- True of an invocation exactly when it is a bibliography-tool run. -/
def isBibInv : Invocation → Bool
  | .bibliography _ => true
  | .compilerPass _ => false

/-- The outcome is a normal exit (no exception raised). -/
def isExitOutcome : RunOutcome → Prop
  | .exit _ => True
  | _ => False

instance (o : RunOutcome) : Decidable (isExitOutcome o) := by
  cases o <;> simp [isExitOutcome] <;> infer_instance

/-- The outcome is a normal exit with status zero (a successful pass). -/
def passOk : RunOutcome → Prop
  | .exit r => r.returncode = 0
  | _ => False

instance (o : RunOutcome) : Decidable (passOk o) := by
  cases o <;> simp [passOk] <;> infer_instance

/-- The outcome is not a zero-status exit: the run failed or raised. -/
def notSuccessRun : RunOutcome → Prop
  | .exit r => r.returncode ≠ 0
  | _ => True

instance (o : RunOutcome) : Decidable (notSuccessRun o) := by
  cases o <;> simp [notSuccessRun] <;> infer_instance

/-- One external action performed by `pdf_to_png`: the `pdfcrop` run, the
primary `pdftoppm` rasterization, the ImageMagick fallback run, or a call
of `_trim_png_inplace` (whose internal tool probing and run are swallowed
and never influence the result, app.py:254-267). -/
inductive ConvAction where
  | runPdfcrop
  | runPdftoppm
  | runConvertFallback
  | trimAttempt
deriving DecidableEq

/-- The dictionary returned by `pdf_to_png`. -/
structure ConvertResult where
  success : Bool
  error : Option String := none
deriving DecidableEq

/-- Full observable outcome of one `pdf_to_png` call: the ordered list of
external actions, the returned dictionary, and the path used as the
rasterization source (the original PDF or the `pdfcrop` output). -/
structure ConvOut where
  trace : List ConvAction
  result : ConvertResult
  sourceUsed : String
deriving DecidableEq

/-- Environment of external effects for one `pdf_to_png` call. -/
structure ConvertEnv where
  /-- `check_command "pdfcrop"` (app.py:204). -/
  pdfcropAvailable : Bool
  /-- Outcome of the `pdfcrop` run (its exit status is never inspected). -/
  pdfcropOutcome : RunOutcome
  /-- `cropped_pdf.exists()` after the `pdfcrop` run (app.py:210). -/
  croppedExists : Bool
  /-- Outcome of the `pdftoppm` run. -/
  pdftoppmOutcome : RunOutcome
  /-- `check_command "convert"` (app.py:225), selecting the fallback name. -/
  convertAvailable : Bool
  /-- Outcome of the ImageMagick fallback run. -/
  convertOutcome : RunOutcome
  /-- Result of `find_command` for each tool name. -/
  resolve : String → String

/-- Rasterization stage of `pdf_to_png` (app.py:213-241): the `pdftoppm`
attempt, the optional post-hoc trim, the ImageMagick fallback (the
`convert` and `magick` command lines at app.py:227-230 are identical, so
only the resolved name differs), its own trim, and the final failure
dictionary interpolating the fallback run's stderr.  `tr` is the trace
accumulated by the cropping stage. -/
def rasterizeStage (env : ConvertEnv) (tr : List ConvAction)
    (source_pdf _png_file : String) (_dpi : Nat) (crop : Bool) : ConvOut :=
  match env.pdftoppmOutcome with
  | .timeout =>
      { trace := tr ++ [.runPdftoppm],
        result := { success := false, error := some "PDF conversion timed out" },
        sourceUsed := source_pdf }
  | .notFound =>
      { trace := tr ++ [.runPdftoppm],
        result := { success := false,
                    error := some ("Conversion error: " ++
                      notFoundMsg (env.resolve "pdftoppm")) },
        sourceUsed := source_pdf }
  | .exit r =>
    if r.returncode = 0 then
      if crop && !(endsWithStr source_pdf "document-cropped.pdf") then
        { trace := tr ++ [.runPdftoppm, .trimAttempt],
          result := { success := true }, sourceUsed := source_pdf }
      else
        { trace := tr ++ [.runPdftoppm],
          result := { success := true }, sourceUsed := source_pdf }
    else
      let convert_cmd :=
        if env.convertAvailable then env.resolve "convert" else env.resolve "magick"
      match env.convertOutcome with
      | .timeout =>
          { trace := tr ++ [.runPdftoppm, .runConvertFallback],
            result := { success := false, error := some "PDF conversion timed out" },
            sourceUsed := source_pdf }
      | .notFound =>
          { trace := tr ++ [.runPdftoppm, .runConvertFallback],
            result := { success := false,
                        error := some ("Conversion error: " ++ notFoundMsg convert_cmd) },
            sourceUsed := source_pdf }
      | .exit r2 =>
        if r2.returncode = 0 then
          if crop then
            { trace := tr ++ [.runPdftoppm, .runConvertFallback, .trimAttempt],
              result := { success := true }, sourceUsed := source_pdf }
          else
            { trace := tr ++ [.runPdftoppm, .runConvertFallback],
              result := { success := true }, sourceUsed := source_pdf }
        else
          { trace := tr ++ [.runPdftoppm, .runConvertFallback],
            result := { success := false,
                        error := some ("Failed to convert PDF to PNG. pdftoppm result: " ++
                          r2.stderr ++ ", convert not available.") },
            sourceUsed := source_pdf }

/-- `pdf_to_png` (app.py:198-252).  `parentDir` is `pdf_file.parent`
rendered as a string prefix, so the `pdfcrop` output path is
`parentDir ++ "document-cropped.pdf"`.  If `crop` is set and `pdfcrop`
is available, the `pdfcrop` run happens first; its exit status is
ignored, but its timeout or absence raises into the enclosing handlers
(subprocess.run at app.py:209 sits inside the function-wide `try`).
The cropped file becomes the source exactly when it exists afterwards. -/
def pdf_to_png (env : ConvertEnv) (parentDir pdf_file png_file : String)
    (dpi : Nat) (crop : Bool) : ConvOut :=
  if crop && env.pdfcropAvailable then
    match env.pdfcropOutcome with
    | .timeout =>
        { trace := [.runPdfcrop],
          result := { success := false, error := some "PDF conversion timed out" },
          sourceUsed := pdf_file }
    | .notFound =>
        { trace := [.runPdfcrop],
          result := { success := false,
                      error := some ("Conversion error: " ++
                        notFoundMsg (env.resolve "pdfcrop")) },
          sourceUsed := pdf_file }
    | .exit _ =>
        let source := if env.croppedExists then parentDir ++ "document-cropped.pdf" else pdf_file
        rasterizeStage env [.runPdfcrop] source png_file dpi crop
  else
    rasterizeStage env [] pdf_file png_file dpi crop

/-- Availability probes consulted by `readiness_report`, one
`check_command` result per tool name. -/
structure ToolProbes where
  pdflatex : Bool
  biber : Bool
  bibtex : Bool
  pdftoppm : Bool
  convert : Bool
  magick : Bool
  pdfcrop : Bool

/-- The `tools` mapping built by `readiness_report` (app.py:271-278);
its `convert` entry merges the `convert` and `magick` probes. -/
structure ToolsMap where
  pdflatex : Bool
  biber : Bool
  bibtex : Bool
  pdftoppm : Bool
  convert : Bool
  pdfcrop : Bool
deriving DecidableEq

/-- `readiness_report` (app.py:269-283): the tools mapping together with
the overall `ready` verdict. -/
def readiness_report (p : ToolProbes) : Bool × ToolsMap :=
  let tools : ToolsMap :=
    { pdflatex := p.pdflatex, biber := p.biber, bibtex := p.bibtex,
      pdftoppm := p.pdftoppm, convert := p.convert || p.magick,
      pdfcrop := p.pdfcrop }
  (tools.pdflatex && (tools.pdftoppm || tools.convert), tools)

/-- Python truthiness of an optional string value (`if bib_entries:`):
`None` and the empty string are falsy. -/
def pyTruthy : Option String → Bool
  | none => false
  | some s => !(s == "")

/-- `BASE_PREAMBLE` (app.py:29-39). -/
def BASE_PREAMBLE : String :=
  "\n\\documentclass[11pt]\x7barticle\x7d\n\\usepackage[margin=0.5in]\x7bgeometry\x7d\n\\usepackage\x7bamsmath,amsfonts,amssymb\x7d\n\\usepackage\x7bsiunitx\x7d\n\\usepackage\x7bbooktabs\x7d\n\\usepackage\x7bgraphicx\x7d\n\\usepackage\x7bfloat\x7d\n\\usepackage[hidelinks]\x7bhyperref\x7d\n\\usepackage\x7bmicrotype\x7d\n"

/-- The dictionary returned by `render_snippet`. -/
structure RenderResult where
  success : Bool
  error : Option String := none
  log : Option String := none
  image_data : Option String := none
  temp_id : Option String := none
deriving DecidableEq

/-- Full observable outcome of one `render_snippet` call: the returned
dictionary, whether the per-request workspace directory still exists on
disk when the call returns, whether `references.bib` was written into
it, and the assembled document text. -/
structure RenderOut where
  result : RenderResult
  workspaceExists : Bool
  bibFileWritten : Bool
  texContent : String
deriving DecidableEq

/-- Environment of external effects for one `render_snippet` call.  The
`compileEnv.bibFileExists` field is overridden inside `render_snippet`
by whether the call itself wrote `references.bib`. -/
structure RenderEnv where
  compileEnv : CompileEnv
  convertEnv : ConvertEnv
  /-- The `uuid.uuid4()` string. -/
  tempId : String
  /-- Base64 text of the PNG bytes read on the success path. -/
  pngData : String
  /-- Whether reading the PNG back succeeds (a failure raises into the
  function-wide handler). -/
  pngReadOk : Bool
  /-- Exception text when reading the PNG back fails. -/
  pngReadErr : String

/-- `render_snippet` (app.py:41-128): create the workspace directory,
assemble the document (bibliography preamble and emission command chosen
by truthiness of `bib_entries` and by `use_biblatex`), write
`references.bib` exactly when `bib_entries` is truthy, compile, convert,
read the PNG, and remove the workspace — the `shutil.rmtree` sits only
on the full-success path (app.py:116), so every failure return leaves
the directory in place.  `sanitize_graphics` is accepted and never read;
`hide_warnings` is forwarded to `compile_latex`, which ignores it. -/
def render_snippet (env : RenderEnv) (body : String) (preamble_extra : String)
    (sanitize_graphics : Bool) (passes : Int) (bib_entries : Option String)
    (use_biblatex : Bool) (hide_warnings : Bool) : RenderOut :=
  let bibWritten := pyTruthy bib_entries
  let bibPreamble : String :=
    if bibWritten then
      if use_biblatex then
        "\n\\usepackage[style=numeric]\x7bbiblatex\x7d\n\\addbibresource\x7breferences.bib\x7d"
      else
        "\n\\usepackage\x7bnatbib\x7d"
    else ""
  let bib_command : String :=
    if bibWritten then
      if use_biblatex then "\\printbibliography" else "\\bibliography\x7breferences\x7d"
    else ""
  let full_preamble := BASE_PREAMBLE ++ "\n" ++ preamble_extra ++ bibPreamble
  let latex_content :=
    "\n" ++ full_preamble ++ "\n\n\\begin\x7bdocument\x7d\n" ++ body ++ "\n" ++
      bib_command ++ "\n\\end\x7bdocument\x7d\n"
  let cout := compile_latex { env.compileEnv with bibFileExists := bibWritten }
      passes use_biblatex hide_warnings
  if !cout.2.success then
    { result := { success := false, error := cout.2.error,
                  log := some (cout.2.log.getD "") },
      workspaceExists := true, bibFileWritten := bibWritten,
      texContent := latex_content }
  else
    let parentDir := "temp/" ++ env.tempId ++ "/"
    let vout := pdf_to_png env.convertEnv parentDir (parentDir ++ "document.pdf")
        (parentDir ++ "document.png") 300 true
    if !vout.result.success then
      { result := { success := false, error := vout.result.error },
        workspaceExists := true, bibFileWritten := bibWritten,
        texContent := latex_content }
    else if env.pngReadOk then
      { result := { success := true, image_data := some env.pngData,
                    temp_id := some env.tempId },
        workspaceExists := false, bibFileWritten := bibWritten,
        texContent := latex_content }
    else
      { result := { success := false,
                    error := some ("Unexpected error: " ++ env.pngReadErr) },
        workspaceExists := true, bibFileWritten := bibWritten,
        texContent := latex_content }

/-! Concrete environments used by the closed theorems below. -/

/-- Compile environment with every pass succeeding, the bibliography tool
exiting with status 2, and `references.bib` present. -/
def bibPresentEnv : CompileEnv :=
  { passOutcome := fun _ => RunOutcome.exit ⟨0, "pass out", "pass err"⟩,
    bibOutcome := RunOutcome.exit ⟨2, "bib out", "bib err"⟩,
    bibFileExists := true,
    resolve := fun s => s }

/-- Compile environment where pass 0 succeeds with stdout `FIRSTPASS` and
pass 1 fails with stdout `OUT1` and stderr `ERR1`; no bibliography file. -/
def logCexEnv : CompileEnv :=
  { passOutcome := fun i =>
      if i = 0 then .exit ⟨0, "FIRSTPASS", "E0"⟩ else .exit ⟨1, "OUT1", "ERR1"⟩,
    bibOutcome := .exit ⟨0, "", ""⟩, bibFileExists := false, resolve := fun s => s }

/-- Conversion environment where `pdfcrop` runs and produces the cropped
PDF, `pdftoppm` fails, and the ImageMagick fallback succeeds. -/
def trimCexEnv : ConvertEnv :=
  { pdfcropAvailable := true, pdfcropOutcome := .exit ⟨0, "", ""⟩, croppedExists := true,
    pdftoppmOutcome := .exit ⟨1, "", "toppm failed"⟩, convertAvailable := true,
    convertOutcome := .exit ⟨0, "", ""⟩, resolve := fun s => s }

/-- Conversion environment where `pdfcrop` and `pdftoppm` both succeed. -/
def trimOkEnv : ConvertEnv :=
  { pdfcropAvailable := true, pdfcropOutcome := .exit ⟨0, "", ""⟩, croppedExists := true,
    pdftoppmOutcome := .exit ⟨0, "", ""⟩, convertAvailable := true,
    convertOutcome := .exit ⟨0, "", ""⟩, resolve := fun s => s }

/-- Conversion environment where both rasterizers run and exit nonzero. -/
def convFailEnv : ConvertEnv :=
  { pdfcropAvailable := false, pdfcropOutcome := .exit ⟨0, "", ""⟩, croppedExists := false,
    pdftoppmOutcome := .exit ⟨1, "", "no pdf"⟩, convertAvailable := false,
    convertOutcome := .exit ⟨1, "", "bad input"⟩, resolve := fun s => s }

/-- Compile environment where every pass fails. -/
def compileFailEnv : CompileEnv :=
  { passOutcome := fun _ => .exit ⟨1, "! Undefined control sequence.", "latex stderr"⟩,
    bibOutcome := .exit ⟨0, "", ""⟩, bibFileExists := false, resolve := fun s => s }

/-- Compile environment where every pass succeeds. -/
def compileOkEnv : CompileEnv :=
  { passOutcome := fun _ => .exit ⟨0, "This is pdfTeX", ""⟩,
    bibOutcome := .exit ⟨0, "", ""⟩, bibFileExists := false, resolve := fun s => s }

/-- Conversion environment where every tool succeeds. -/
def convAllOkEnv : ConvertEnv :=
  { pdfcropAvailable := true, pdfcropOutcome := .exit ⟨0, "", ""⟩, croppedExists := true,
    pdftoppmOutcome := .exit ⟨0, "", ""⟩, convertAvailable := true,
    convertOutcome := .exit ⟨0, "", ""⟩, resolve := fun s => s }

/-- Render environment whose compilation fails and whose conversion would
succeed. -/
def leakRenderEnv : RenderEnv :=
  { compileEnv := compileFailEnv, convertEnv := convAllOkEnv, tempId := "w1",
    pngData := "iVBORw0KGgo=", pngReadOk := true, pngReadErr := "" }

/-- Render environment on which every external step succeeds. -/
def okRenderEnv : RenderEnv :=
  { compileEnv := compileOkEnv, convertEnv := convAllOkEnv, tempId := "w2",
    pngData := "iVBORw0KGgo=", pngReadOk := true, pngReadErr := "" }

/-! Helper lemmas about the compile loop and the conversion stages. -/

/-- From pass index 1 on, the compile loop never invokes a bibliography
tool (the bibliography step is guarded by the index being 0). -/
lemma compileLoop_no_bib_ge1 (env : CompileEnv) (ub : Bool) :
    ∀ n i, 1 ≤ i → ∀ a ∈ (compileLoop env ub n i).1, isBibInv a = false := by
  intro n
  induction n with
  | zero => intro i _; simp [compileLoop]
  | succ n ih =>
    intro i hi
    have hne : ¬(i = 0 ∧ env.bibFileExists) := by
      rintro ⟨rfl, _⟩; omega
    have hrec := ih (i + 1) (by omega)
    cases h : env.passOutcome i with
    | timeout => simp [compileLoop, h, isBibInv]
    | notFound => simp [compileLoop, h, isBibInv]
    | exit r =>
      by_cases hr : r.returncode = 0
      · simpa [compileLoop, h, hr, hne, isBibInv] using hrec
      · simp [compileLoop, h, hr, isBibInv]

/-- From pass index 1 on, the compile loop does not depend on the
bibliography tool's outcome. -/
lemma compileLoop_bibOutcome_irrel (env : CompileEnv) (ub : Bool) (o : RunOutcome) :
    ∀ n i, 1 ≤ i →
      compileLoop { env with bibOutcome := o } ub n i = compileLoop env ub n i := by
  intro n
  induction n with
  | zero => intro i _; simp [compileLoop]
  | succ n ih =>
    intro i hi
    have hne : ¬(i = 0 ∧ env.bibFileExists) := by
      rintro ⟨rfl, _⟩; omega
    have hrec := ih (i + 1) (by omega)
    cases h : env.passOutcome i with
    | timeout => simp [compileLoop, h]
    | notFound => simp [compileLoop, h]
    | exit r =>
      by_cases hr : r.returncode = 0
      · simp [compileLoop, h, hr, hne, hrec]
      · simp [compileLoop, h, hr]

/-- A nonempty compile loop starting at index at least 1 always performs
the compiler pass of its start index first. -/
lemma compileLoop_head_ge1 (env : CompileEnv) (ub : Bool) (n i : Nat) (hi : 1 ≤ i) :
    ∃ rest res,
      compileLoop env ub (n + 1) i = (Invocation.compilerPass i :: rest, res) := by
  have hne : ¬(i = 0 ∧ env.bibFileExists) := by
    rintro ⟨rfl, _⟩; omega
  cases h : env.passOutcome i with
  | timeout =>
      refine ⟨[], { success := false, error := some "LaTeX compilation timed out" }, ?_⟩
      simp [compileLoop, h]
  | notFound =>
      refine ⟨[], { success := false,
                    error := some ("Compilation error: " ++
                      notFoundMsg (env.resolve "pdflatex")) }, ?_⟩
      simp [compileLoop, h]
  | exit r =>
    by_cases hr : r.returncode = 0
    · refine ⟨(compileLoop env ub n (i + 1)).1, (compileLoop env ub n (i + 1)).2, ?_⟩
      simp [compileLoop, h, hr, hne]
    · refine ⟨[], { success := false, error := some "LaTeX compilation failed",
                    log := some (r.stdout ++ "\n" ++ r.stderr) }, ?_⟩
      simp [compileLoop, h, hr]

/-- One-step unfolding of the compile loop at index 0 when pass 0 exits
zero, a bibliography file exists, and the bibliography tool exits. -/
lemma compileLoop_step0_bib (env : CompileEnv) (ub : Bool) (n : Nat) (r0 b : RunResult)
    (hbib : env.bibFileExists = true)
    (h0 : env.passOutcome 0 = .exit r0) (hrc : r0.returncode = 0)
    (hb : env.bibOutcome = .exit b) :
    compileLoop env ub (n + 1) 0 =
      (Invocation.compilerPass 0 :: Invocation.bibliography (bibToolName ub) ::
        (compileLoop env ub n 1).1, (compileLoop env ub n 1).2) := by
  simp [compileLoop, h0, hrc, hbib, hb]

/-- One-step unfolding of the compile loop at index 0 when pass 0 exits
zero and no bibliography file exists. -/
lemma compileLoop_step0_nobib (env : CompileEnv) (ub : Bool) (n : Nat) (r0 : RunResult)
    (hbf : env.bibFileExists = false)
    (h0 : env.passOutcome 0 = .exit r0) (hrc : r0.returncode = 0) :
    compileLoop env ub (n + 1) 0 =
      (Invocation.compilerPass 0 :: (compileLoop env ub n 1).1,
       (compileLoop env ub n 1).2) := by
  simp [compileLoop, h0, hrc, hbf]

/-- If the loop is started at index at least 1 and the first failing pass
is `gap` steps in, the trace is exactly the pass invocations up to the
failure and the result carries the failing pass's stdout and stderr. -/
lemma compileLoop_fail_ge1 (env : CompileEnv) (ub : Bool) (r : RunResult)
    (hrc : r.returncode ≠ 0) :
    ∀ gap s n, 1 ≤ s → gap < n →
      (∀ j, j < gap → passOk (env.passOutcome (s + j))) →
      env.passOutcome (s + gap) = .exit r →
      compileLoop env ub n s =
        ((List.range (gap + 1)).map (fun j => Invocation.compilerPass (s + j)),
         { success := false, error := some "LaTeX compilation failed",
           log := some (r.stdout ++ "\n" ++ r.stderr) }) := by
  intro gap
  induction gap with
  | zero =>
    intro s n hs hn hprev hfail
    obtain ⟨m, rfl⟩ : ∃ m, n = m + 1 := ⟨n - 1, by omega⟩
    simp only [Nat.add_zero] at hfail
    rw [show List.range 1 = [0] from rfl]
    simp [compileLoop, hfail, hrc]
  | succ gap ih =>
    intro s n hs hn hprev hfail
    obtain ⟨m, rfl⟩ : ∃ m, n = m + 1 := ⟨n - 1, by omega⟩
    have hne : ¬(s = 0 ∧ env.bibFileExists) := by rintro ⟨rfl, _⟩; omega
    have h0 := hprev 0 (by omega)
    cases hps : env.passOutcome (s + 0) with
    | timeout => rw [hps] at h0; simp [passOk] at h0
    | notFound => rw [hps] at h0; simp [passOk] at h0
    | exit rs =>
      rw [hps] at h0
      have hrs : rs.returncode = 0 := h0
      rw [Nat.add_zero] at hps
      have hrec := ih (s + 1) m (by omega) (by omega)
        (fun j hj => by
          have := hprev (j + 1) (by omega)
          have harith : s + (j + 1) = s + 1 + j := by omega
          rwa [harith] at this)
        (by
          have harith : s + (gap + 1) = s + 1 + gap := by omega
          rwa [harith] at hfail)
      have htr : Invocation.compilerPass s ::
          (List.range (gap + 1)).map (fun j => Invocation.compilerPass (s + 1 + j)) =
          (List.range (gap + 1 + 1)).map (fun j => Invocation.compilerPass (s + j)) := by
        conv_rhs => rw [List.range_succ_eq_map]
        rw [List.map_cons, List.map_map]
        congr 1
        · apply List.map_congr_left
          intro j hj
          simp only [Function.comp_apply]
          congr 1
          omega
      simp [compileLoop, hps, hrs, hne, hrec, htr]

/-- When neither rasterization attempt exits with status zero, the
rasterization stage fails; when both actually exited, its error string
names both `pdftoppm` and `convert`. -/
lemma rasterizeStage_failure (env : ConvertEnv) (tr : List ConvAction)
    (source png : String) (dpi : Nat) (crop : Bool)
    (h1 : notSuccessRun env.pdftoppmOutcome)
    (h2 : notSuccessRun env.convertOutcome) :
    (rasterizeStage env tr source png dpi crop).result.success = false ∧
    (∀ r1 r2, env.pdftoppmOutcome = .exit r1 → env.convertOutcome = .exit r2 →
      ∃ e, (rasterizeStage env tr source png dpi crop).result.error = some e ∧
        containsStr e "pdftoppm" ∧ containsStr e "convert") := by
  cases hp : env.pdftoppmOutcome with
  | timeout =>
    refine ⟨by simp [rasterizeStage, hp], ?_⟩
    intro r1 r2 h1' _
    cases h1'
  | notFound =>
    refine ⟨by simp [rasterizeStage, hp], ?_⟩
    intro r1 r2 h1' _
    cases h1'
  | exit r1 =>
    have hr1 : r1.returncode ≠ 0 := by rw [hp] at h1; exact h1
    cases hcv : env.convertOutcome with
    | timeout =>
      refine ⟨by simp [rasterizeStage, hp, hr1, hcv], ?_⟩
      intro r1' r2' _ h2'
      cases h2'
    | notFound =>
      refine ⟨by simp [rasterizeStage, hp, hr1, hcv], ?_⟩
      intro r1' r2' _ h2'
      cases h2'
    | exit r2 =>
      have hr2 : r2.returncode ≠ 0 := by rw [hcv] at h2; exact h2
      refine ⟨by simp [rasterizeStage, hp, hr1, hcv, hr2], ?_⟩
      intro r1' r2' _ _
      refine ⟨"Failed to convert PDF to PNG. pdftoppm result: " ++ r2.stderr ++
        ", convert not available.", by simp [rasterizeStage, hp, hr1, hcv, hr2], ?_, ?_⟩
      · refine ⟨"Failed to convert PDF to PNG. ".data,
          " result: ".data ++ r2.stderr.data ++ ", convert not available.".data, ?_⟩
        have h : "Failed to convert PDF to PNG. pdftoppm result: ".data =
            "Failed to convert PDF to PNG. ".data ++ "pdftoppm".data ++ " result: ".data := by
          decide
        simp [containsStr, String.data_append, h]
      · refine ⟨"Failed to ".data,
          " PDF to PNG. pdftoppm result: ".data ++ r2.stderr.data ++
            ", convert not available.".data, ?_⟩
        have h : "Failed to convert PDF to PNG. pdftoppm result: ".data =
            "Failed to ".data ++ "convert".data ++ " PDF to PNG. pdftoppm result: ".data := by
          decide
        simp [containsStr, String.data_append, h]

/-- After a successful primary rasterization, the trim pass is recorded
exactly when cropping was requested and the source is not the `pdfcrop`
output, and the source path is preserved. -/
lemma rasterizeStage_trim_primary (env : ConvertEnv) (tr : List ConvAction)
    (source png : String) (dpi : Nat) (crop : Bool) (r : RunResult)
    (hp : env.pdftoppmOutcome = .exit r) (hr : r.returncode = 0)
    (htr : ConvAction.trimAttempt ∉ tr) :
    (ConvAction.trimAttempt ∈ (rasterizeStage env tr source png dpi crop).trace ↔
      (crop = true ∧ endsWithStr source "document-cropped.pdf" = false)) ∧
    (rasterizeStage env tr source png dpi crop).sourceUsed = source := by
  by_cases hcond : (crop && !(endsWithStr source "document-cropped.pdf")) = true
  · have hcrop : crop = true := by revert hcond; cases crop <;> simp
    have hends : endsWithStr source "document-cropped.pdf" = false := by
      revert hcond; cases endsWithStr source "document-cropped.pdf" <;> simp
    constructor
    · simp [rasterizeStage, hp, hr, hcond, hcrop, hends]
    · simp [rasterizeStage, hp, hr, hcond]
  · constructor
    · simp [rasterizeStage, hp, hr, hcond, htr]
      intro hcrop
      rw [hcrop] at hcond
      revert hcond
      cases endsWithStr source "document-cropped.pdf" <;> simp
    · simp [rasterizeStage, hp, hr, hcond]

/-- After a failed primary rasterization and a successful fallback run,
the trim pass is recorded exactly when cropping was requested. -/
lemma rasterizeStage_trim_fallback (env : ConvertEnv) (tr : List ConvAction)
    (source png : String) (dpi : Nat) (crop : Bool) (r r2 : RunResult)
    (hp : env.pdftoppmOutcome = .exit r) (hr : r.returncode ≠ 0)
    (hcv : env.convertOutcome = .exit r2) (hr2 : r2.returncode = 0)
    (htr : ConvAction.trimAttempt ∉ tr) :
    (ConvAction.trimAttempt ∈ (rasterizeStage env tr source png dpi crop).trace ↔
      crop = true) := by
  cases crop with
  | true => simp [rasterizeStage, hp, hr, hcv, hr2]
  | false => simp [rasterizeStage, hp, hr, hcv, hr2, htr]

/-- The `references.bib` write in `render_snippet` happens exactly when
`bib_entries` is truthy, on every control path. -/
lemma render_snippet_bibFileWritten (env : RenderEnv) (body pe : String) (sg : Bool)
    (passes : Int) (bib : Option String) (ub hw : Bool) :
    (render_snippet env body pe sg passes bib ub hw).bibFileWritten = pyTruthy bib := by
  by_cases h1 : (compile_latex { env.compileEnv with bibFileExists := pyTruthy bib }
      passes ub hw).2.success = true
  · by_cases h2 : (pdf_to_png env.convertEnv ("temp/" ++ env.tempId ++ "/")
        ("temp/" ++ env.tempId ++ "/" ++ "document.pdf")
        ("temp/" ++ env.tempId ++ "/" ++ "document.png") 300 true).result.success = true
    · by_cases h3 : env.pngReadOk = true
      · simp [render_snippet, h1, h2, h3]
      · simp [render_snippet, h1, h2, h3]
    · simp [render_snippet, h1, h2]
  · simp [render_snippet, h1]

/-! Theorems settling the claims. -/

/-- C1: the claim states that the per-request workspace directory is
released on every exit path of `render_snippet`.  The code removes it
only on the full-success path (app.py:116): on a compilation failure the
call returns with the directory still present, while a fully successful
call does remove it.  This closed theorem evaluates `render_snippet` on
an environment whose compilation fails and on one where everything
succeeds, showing the leak on the failure path. -/
theorem render_snippet_leaks_workspace_on_compile_failure :
    (render_snippet leakRenderEnv "$E=mc^2$" "" true 1 none false false).result.success
       = false ∧
    (render_snippet leakRenderEnv "$E=mc^2$" "" true 1 none false false).workspaceExists
       = true ∧
    (render_snippet okRenderEnv "$E=mc^2$" "" true 1 none false false).workspaceExists
       = false := by
  refine ⟨?_, ?_, ?_⟩ <;> rfl

/-- C2 counterexample: with a bibliography file present and `passes = 2`,
a call whose pass 0 exits nonzero performs zero bibliography invocations,
refuting the claim's unconditional `exactly one invocation for every
call`. -/
theorem compile_latex_no_bib_call_when_pass0_fails :
    ({ bibPresentEnv with passOutcome := fun _ => RunOutcome.exit ⟨1, "boom", "err"⟩ } :
        CompileEnv).bibFileExists = true ∧
    List.countP isBibInv
      (compile_latex
        { bibPresentEnv with passOutcome := fun _ => RunOutcome.exit ⟨1, "boom", "err"⟩ }
        2 false false).1 = 0 := by
  constructor
  · rfl
  · rfl

/-- C2 amended: if a bibliography file exists, `passes ≥ 2`, pass 0 exits
zero and the bibliography tool itself exits (rather than timing out or
being absent), then the bibliography tool is invoked exactly once,
strictly after pass 0 and before pass 1, and the full output of
`compile_latex` is unchanged under any other bibliography exit status. -/
theorem compile_latex_bib_once (env : CompileEnv) (passes : Int) (ub hw : Bool)
    (r0 b bAlt : RunResult)
    (hbib : env.bibFileExists = true) (hp : 2 ≤ passes)
    (h0 : env.passOutcome 0 = .exit r0) (hrc : r0.returncode = 0)
    (hb : env.bibOutcome = .exit b) :
    (∃ rest, (compile_latex env passes ub hw).1 =
        Invocation.compilerPass 0 :: Invocation.bibliography (bibToolName ub) ::
          Invocation.compilerPass 1 :: rest) ∧
    List.countP isBibInv (compile_latex env passes ub hw).1 = 1 ∧
    compile_latex { env with bibOutcome := .exit bAlt } passes ub hw =
      compile_latex env passes ub hw := by
  obtain ⟨m, hm⟩ : ∃ m, passes.toNat = m + 2 := ⟨passes.toNat - 2, by omega⟩
  obtain ⟨rest, res, hrest⟩ := compileLoop_head_ge1 env ub m 1 (by omega)
  have hmain : compile_latex env passes ub hw =
      (Invocation.compilerPass 0 :: Invocation.bibliography (bibToolName ub) ::
        (compileLoop env ub (m + 1) 1).1, (compileLoop env ub (m + 1) 1).2) := by
    show compileLoop env ub passes.toNat 0 = _
    rw [hm]
    exact compileLoop_step0_bib env ub (m + 1) r0 b hbib h0 hrc hb
  refine ⟨⟨rest, ?_⟩, ?_, ?_⟩
  · rw [hmain, hrest]
  · have hnb := compileLoop_no_bib_ge1 env ub (m + 1) 1 (by omega)
    have hz : List.countP isBibInv (compileLoop env ub (m + 1) 1).1 = 0 :=
      List.countP_eq_zero.mpr (fun a ha => by simp [hnb a ha])
    rw [hmain]
    simp [List.countP_cons, isBibInv, hz]
  · have hirr := compileLoop_bibOutcome_irrel env ub (.exit bAlt) (m + 1) 1 (by omega)
    have hmain2 : compile_latex { env with bibOutcome := .exit bAlt } passes ub hw =
        (Invocation.compilerPass 0 :: Invocation.bibliography (bibToolName ub) ::
          (compileLoop { env with bibOutcome := .exit bAlt } ub (m + 1) 1).1,
         (compileLoop { env with bibOutcome := .exit bAlt } ub (m + 1) 1).2) := by
      show compileLoop { env with bibOutcome := .exit bAlt } ub passes.toNat 0 = _
      rw [hm]
      exact compileLoop_step0_bib _ ub (m + 1) r0 bAlt hbib h0 hrc rfl
    rw [hmain, hmain2, hirr]

/-- C2 witness: the amended theorem instantiated on a concrete
environment with a present bibliography file and two passes. -/
theorem compile_latex_bib_once_witness :
    (bibPresentEnv.bibFileExists = true ∧ (2 : Int) ≤ 2 ∧
      bibPresentEnv.passOutcome 0 = RunOutcome.exit ⟨0, "pass out", "pass err"⟩ ∧
      (⟨0, "pass out", "pass err"⟩ : RunResult).returncode = 0 ∧
      bibPresentEnv.bibOutcome = RunOutcome.exit ⟨2, "bib out", "bib err"⟩) ∧
    ((∃ rest, (compile_latex bibPresentEnv 2 false false).1 =
        Invocation.compilerPass 0 :: Invocation.bibliography (bibToolName false) ::
          Invocation.compilerPass 1 :: rest) ∧
      List.countP isBibInv (compile_latex bibPresentEnv 2 false false).1 = 1 ∧
      compile_latex { bibPresentEnv with bibOutcome := RunOutcome.exit ⟨0, "ok", "" ⟩ }
          2 false false =
        compile_latex bibPresentEnv 2 false false) :=
  ⟨⟨rfl, by decide, rfl, rfl, rfl⟩,
   compile_latex_bib_once bibPresentEnv 2 false false
     ⟨0, "pass out", "pass err"⟩ ⟨2, "bib out", "bib err"⟩ ⟨0, "ok", ""⟩
     rfl (by decide) rfl rfl rfl⟩

/-- C3 counterexample: with two passes where pass 0 succeeds with stdout
`FIRSTPASS` and pass 1 fails, the returned log is only pass 1's stdout
and stderr and does not contain pass 0's output, refuting the claim that
the log concatenates all passes up to and including the failing one. -/
theorem compile_latex_log_omits_earlier_pass_output :
    (compile_latex logCexEnv 2 false false).2 =
      { success := false, error := some "LaTeX compilation failed",
        log := some "OUT1\nERR1" } ∧
    ¬ containsStr "OUT1\nERR1" "FIRSTPASS" := by
  refine ⟨?_, ?_⟩ <;> decide

/-- C3 amended: when the first failing pass is pass `i` (all earlier
passes exited zero and, if a bibliography step ran, its tool exited),
`compile_latex` returns the failure dictionary whose log is exactly the
failing pass's stdout and stderr — not an accumulation over earlier
passes — and aborts immediately: no compiler pass after `i` is run. -/
theorem compile_latex_fail_log_failing_pass_only (env : CompileEnv) (passes : Int)
    (ub hw : Bool) (i : Nat) (ri : RunResult)
    (hprev : ∀ j, j < i → passOk (env.passOutcome j))
    (hbibok : 0 < i → env.bibFileExists = true → isExitOutcome env.bibOutcome)
    (hi : env.passOutcome i = .exit ri) (hrc : ri.returncode ≠ 0)
    (hlt : (i : Int) < passes) :
    (compile_latex env passes ub hw).2 =
      { success := false, error := some "LaTeX compilation failed",
        log := some (ri.stdout ++ "\n" ++ ri.stderr) } ∧
    ∀ j, Invocation.compilerPass j ∈ (compile_latex env passes ub hw).1 → j ≤ i := by
  have hiN : i < passes.toNat := by omega
  rcases Nat.eq_zero_or_pos i with hz | hpos
  · subst hz
    obtain ⟨m, hm⟩ : ∃ m, passes.toNat = m + 1 := ⟨passes.toNat - 1, by omega⟩
    have hstep : compileLoop env ub (m + 1) 0 =
        ([Invocation.compilerPass 0],
         { success := false, error := some "LaTeX compilation failed",
           log := some (ri.stdout ++ "\n" ++ ri.stderr) }) := by
      simp [compileLoop, hi, hrc]
    constructor
    · show (compileLoop env ub passes.toNat 0).2 = _
      rw [hm, hstep]
    · intro j hj
      have hj2 : Invocation.compilerPass j ∈ (compileLoop env ub passes.toNat 0).1 := hj
      rw [hm, hstep] at hj2
      simp at hj2
      omega
  · obtain ⟨gap, rfl⟩ : ∃ g, i = g + 1 := ⟨i - 1, by omega⟩
    obtain ⟨m, hm⟩ : ∃ m, passes.toNat = m + 1 := ⟨passes.toNat - 1, by omega⟩
    have h00 := hprev 0 (by omega)
    cases hp0 : env.passOutcome 0 with
    | timeout => rw [hp0] at h00; simp [passOk] at h00
    | notFound => rw [hp0] at h00; simp [passOk] at h00
    | exit r0 =>
      rw [hp0] at h00
      have hr0 : r0.returncode = 0 := h00
      have hrec := compileLoop_fail_ge1 env ub ri hrc gap 1 m (by omega) (by omega)
        (fun j hj => by
          have := hprev (j + 1) (by omega)
          have harith : j + 1 = 1 + j := by omega
          rwa [harith] at this)
        (by
          have harith : 1 + gap = gap + 1 := by omega
          rw [harith]
          exact hi)
      by_cases hbf : env.bibFileExists = true
      · have hbe := hbibok (by omega) hbf
        cases hbo : env.bibOutcome with
        | timeout => rw [hbo] at hbe; simp [isExitOutcome] at hbe
        | notFound => rw [hbo] at hbe; simp [isExitOutcome] at hbe
        | exit b =>
          have hstep := compileLoop_step0_bib env ub m r0 b hbf hp0 hr0 hbo
          constructor
          · show (compileLoop env ub passes.toNat 0).2 = _
            rw [hm, hstep, hrec]
          · intro j hj
            have hj2 : Invocation.compilerPass j ∈ (compileLoop env ub passes.toNat 0).1 := hj
            rw [hm, hstep, hrec] at hj2
            simp at hj2
            rcases hj2 with hj2 | ⟨a, ha, rfl⟩
            · omega
            · omega
      · have hbf2 : env.bibFileExists = false := by
          revert hbf; cases env.bibFileExists <;> simp
        have hstep := compileLoop_step0_nobib env ub m r0 hbf2 hp0 hr0
        constructor
        · show (compileLoop env ub passes.toNat 0).2 = _
          rw [hm, hstep, hrec]
        · intro j hj
          have hj2 : Invocation.compilerPass j ∈ (compileLoop env ub passes.toNat 0).1 := hj
          rw [hm, hstep, hrec] at hj2
          simp at hj2
          rcases hj2 with hj2 | ⟨a, ha, rfl⟩
          · omega
          · omega

/-- C3 witness: the amended theorem instantiated on the two-pass
environment whose second pass fails. -/
theorem compile_latex_fail_log_witness :
    (logCexEnv.passOutcome 1 = RunOutcome.exit ⟨1, "OUT1", "ERR1"⟩ ∧
      ((1 : Nat) : Int) < 2) ∧
    (compile_latex logCexEnv 2 false false).2 =
      { success := false, error := some "LaTeX compilation failed",
        log := some ("OUT1" ++ "\n" ++ "ERR1") } :=
  ⟨⟨rfl, by decide⟩,
   (compile_latex_fail_log_failing_pass_only logCexEnv 2 false false 1 ⟨1, "OUT1", "ERR1"⟩
      (fun j hj => by
        have hj0 : j = 0 := by omega
        subst hj0
        decide)
      (fun _ hbf => by exact absurd hbf (by decide))
      rfl (by decide) (by decide)).1⟩

/-- C4 counterexample: with cropping requested, `pdfcrop` available and
its output present, a failing `pdftoppm` and a succeeding ImageMagick
fallback, the pixel-trim pass is applied even though the vector-crop step
ran (the rasterization source is the `pdfcrop` output), refuting the
claim that the trim pass runs exactly when the vector-crop step did not,
with the same policy after the fallback as after the primary tool. -/
theorem pdf_to_png_trims_after_fallback_despite_vector_crop :
    ConvAction.runPdfcrop ∈
      (pdf_to_png trimCexEnv "ws/" "ws/document.pdf" "ws/document.png" 300 true).trace ∧
    endsWithStr
      (pdf_to_png trimCexEnv "ws/" "ws/document.pdf" "ws/document.png" 300 true).sourceUsed
      "document-cropped.pdf" = true ∧
    ConvAction.trimAttempt ∈
      (pdf_to_png trimCexEnv "ws/" "ws/document.pdf" "ws/document.png" 300 true).trace := by
  refine ⟨?_, ?_, ?_⟩ <;> decide

/-- C4 amended: after a successful primary rasterization, the trim pass
is applied exactly when cropping was requested and the source used was
not the `pdfcrop` output; after a successful fallback rasterization, the
trim pass is applied whenever cropping was requested, regardless of
whether the vector-crop step ran. -/
theorem pdf_to_png_trim_policy (env : ConvertEnv)
    (parentDir pdf_file png_file : String) (dpi : Nat) (crop : Bool)
    (hc : crop = true → env.pdfcropAvailable = true → isExitOutcome env.pdfcropOutcome) :
    (∀ r, env.pdftoppmOutcome = .exit r → r.returncode = 0 →
      (ConvAction.trimAttempt ∈ (pdf_to_png env parentDir pdf_file png_file dpi crop).trace ↔
        (crop = true ∧
          endsWithStr (pdf_to_png env parentDir pdf_file png_file dpi crop).sourceUsed
            "document-cropped.pdf" = false))) ∧
    (∀ r r2, env.pdftoppmOutcome = .exit r → r.returncode ≠ 0 →
      env.convertOutcome = .exit r2 → r2.returncode = 0 →
      (ConvAction.trimAttempt ∈ (pdf_to_png env parentDir pdf_file png_file dpi crop).trace ↔
        crop = true)) := by
  by_cases hcp : (crop && env.pdfcropAvailable) = true
  · have hcrop : crop = true := by revert hcp; cases crop <;> simp
    have hav : env.pdfcropAvailable = true := by
      revert hcp; cases env.pdfcropAvailable <;> simp
    have hex := hc hcrop hav
    cases hco : env.pdfcropOutcome with
    | timeout => rw [hco] at hex; simp [isExitOutcome] at hex
    | notFound => rw [hco] at hex; simp [isExitOutcome] at hex
    | exit rc =>
      constructor
      · intro r hp hr
        have hmain : pdf_to_png env parentDir pdf_file png_file dpi crop =
            rasterizeStage env [ConvAction.runPdfcrop]
              (if env.croppedExists then parentDir ++ "document-cropped.pdf" else pdf_file)
              png_file dpi crop := by
          simp [pdf_to_png, hcp, hco]
        have hlem := rasterizeStage_trim_primary env [ConvAction.runPdfcrop]
          (if env.croppedExists then parentDir ++ "document-cropped.pdf" else pdf_file)
          png_file dpi crop r hp hr (by simp)
        rw [hmain, hlem.2]
        exact hlem.1
      · intro r r2 hp hr hcv hr2
        have hmain : pdf_to_png env parentDir pdf_file png_file dpi crop =
            rasterizeStage env [ConvAction.runPdfcrop]
              (if env.croppedExists then parentDir ++ "document-cropped.pdf" else pdf_file)
              png_file dpi crop := by
          simp [pdf_to_png, hcp, hco]
        rw [hmain]
        exact rasterizeStage_trim_fallback env [ConvAction.runPdfcrop] _ png_file dpi crop
          r r2 hp hr hcv hr2 (by simp)
  · constructor
    · intro r hp hr
      have hmain : pdf_to_png env parentDir pdf_file png_file dpi crop =
          rasterizeStage env [] pdf_file png_file dpi crop := by
        simp [pdf_to_png, hcp]
      have hlem := rasterizeStage_trim_primary env [] pdf_file png_file dpi crop r hp hr
        (by simp)
      rw [hmain, hlem.2]
      exact hlem.1
    · intro r r2 hp hr hcv hr2
      have hmain : pdf_to_png env parentDir pdf_file png_file dpi crop =
          rasterizeStage env [] pdf_file png_file dpi crop := by
        simp [pdf_to_png, hcp]
      rw [hmain]
      exact rasterizeStage_trim_fallback env [] pdf_file png_file dpi crop
        r r2 hp hr hcv hr2 (by simp)

/-- C4 witness: the amended theorem's primary-rasterizer part
instantiated on an environment where `pdfcrop` and `pdftoppm` both
succeed. -/
theorem pdf_to_png_trim_policy_witness :
    (true = true → trimOkEnv.pdfcropAvailable = true → isExitOutcome trimOkEnv.pdfcropOutcome) ∧
    (ConvAction.trimAttempt ∈
        (pdf_to_png trimOkEnv "ws/" "ws/document.pdf" "ws/document.png" 300 true).trace ↔
      (true = true ∧
        endsWithStr
          (pdf_to_png trimOkEnv "ws/" "ws/document.pdf" "ws/document.png" 300 true).sourceUsed
          "document-cropped.pdf" = false)) :=
  ⟨fun _ _ => by decide,
   (pdf_to_png_trim_policy trimOkEnv "ws/" "ws/document.pdf" "ws/document.png" 300 true
      (fun _ _ => by decide)).1 ⟨0, "", ""⟩ rfl rfl⟩

/-- C5: the readiness verdict is true exactly when the compiler probe is
true and at least one of the `pdftoppm` or merged `convert`/`magick`
probes is true, and it is unchanged under arbitrary values of the
`biber`, `bibtex` and `pdfcrop` probes. -/
theorem readiness_report_ready_iff (p : ToolProbes) (bi bt pc : Bool) :
    ((readiness_report p).1 = true ↔
      (p.pdflatex = true ∧ (p.pdftoppm = true ∨ p.convert = true ∨ p.magick = true))) ∧
    (readiness_report { p with biber := bi, bibtex := bt, pdfcrop := pc }).1 =
      (readiness_report p).1 := by
  constructor
  · simp [readiness_report]
  · rfl

/-- C6: when neither rasterization attempt exits with status zero (the
runs fail, time out, or the binaries are absent), `pdf_to_png` returns a
failure dictionary — it never lets an exception escape, every modelled
exception ending in a returned dictionary — and when both rasterizer
runs actually exited nonzero, the error text names both `pdftoppm` and
`convert`. -/
theorem pdf_to_png_exhausted_failure (env : ConvertEnv)
    (parentDir pdf_file png_file : String) (dpi : Nat) (crop : Bool)
    (h1 : notSuccessRun env.pdftoppmOutcome)
    (h2 : notSuccessRun env.convertOutcome)
    (hc : crop = true → env.pdfcropAvailable = true → isExitOutcome env.pdfcropOutcome) :
    (pdf_to_png env parentDir pdf_file png_file dpi crop).result.success = false ∧
    (∀ r1 r2, env.pdftoppmOutcome = .exit r1 → env.convertOutcome = .exit r2 →
      ∃ e, (pdf_to_png env parentDir pdf_file png_file dpi crop).result.error = some e ∧
        containsStr e "pdftoppm" ∧ containsStr e "convert") := by
  by_cases hcp : (crop && env.pdfcropAvailable) = true
  · have hcrop : crop = true := by
      revert hcp; cases crop <;> simp
    have hav : env.pdfcropAvailable = true := by
      revert hcp; cases env.pdfcropAvailable <;> simp
    have hex := hc hcrop hav
    cases hco : env.pdfcropOutcome with
    | timeout => rw [hco] at hex; simp [isExitOutcome] at hex
    | notFound => rw [hco] at hex; simp [isExitOutcome] at hex
    | exit rc =>
      have := rasterizeStage_failure env [ConvAction.runPdfcrop]
        (if env.croppedExists then parentDir ++ "document-cropped.pdf" else pdf_file)
        png_file dpi crop h1 h2
      simpa [pdf_to_png, hcp, hco] using this
  · have := rasterizeStage_failure env [] pdf_file png_file dpi crop h1 h2
    simpa [pdf_to_png, hcp] using this

/-- C6 witness: the theorem instantiated on an environment where both
rasterizer runs exit nonzero. -/
theorem pdf_to_png_exhausted_failure_witness :
    (notSuccessRun convFailEnv.pdftoppmOutcome ∧ notSuccessRun convFailEnv.convertOutcome) ∧
    (pdf_to_png convFailEnv "ws/" "ws/document.pdf" "ws/document.png" 150 true).result.success
        = false ∧
    (∃ e, (pdf_to_png convFailEnv "ws/" "ws/document.pdf" "ws/document.png" 150 true).result.error
        = some e ∧ containsStr e "pdftoppm" ∧ containsStr e "convert") :=
  ⟨⟨by decide, by decide⟩,
   (pdf_to_png_exhausted_failure convFailEnv "ws/" "ws/document.pdf" "ws/document.png" 150 true
      (by decide) (by decide) (fun _ h => by cases h)).1,
   (pdf_to_png_exhausted_failure convFailEnv "ws/" "ws/document.pdf" "ws/document.png" 150 true
      (by decide) (by decide) (fun _ h => by cases h)).2 ⟨1, "", "no pdf"⟩ ⟨1, "", "bad input"⟩
      rfl rfl⟩

/-- C7: `find_command` is a total function of the modelled `which`
outcome — every exception path returns a value — and whenever the
resolution does not succeed (nonzero exit, timeout, or any exception),
it returns the bare name unchanged. -/
theorem find_command_fallback (o : RunOutcome) (command : String)
    (h : ∀ r, o = .exit r → r.returncode ≠ 0) :
    find_command o command = command := by
  cases o with
  | exit r => simp [find_command, h r rfl]
  | timeout => rfl
  | notFound => rfl

/-- C7 witness: the theorem instantiated on a failing `which` run. -/
theorem find_command_fallback_witness :
    (∀ r, RunOutcome.exit ⟨1, "", "which: no pdflatex\n"⟩ = RunOutcome.exit r →
      r.returncode ≠ 0) ∧
    find_command (RunOutcome.exit ⟨1, "", "which: no pdflatex\n"⟩) "pdflatex" = "pdflatex" :=
  ⟨fun r hr => by cases hr; decide,
   find_command_fallback _ _ (fun r hr => by cases hr; decide)⟩

/-- C8 counterexample: a render request supplying the empty string as
`bib_entries` writes no bibliography file into the workspace (Python
truthiness at app.py:58 and app.py:84 treats the empty string as
absent), refuting the claim's `if and only if supplied, including the
empty string` formulation. -/
theorem render_snippet_empty_bib_entries_writes_no_file :
    (render_snippet okRenderEnv "$x$" "" true 1 (some "") false false).bibFileWritten
      = false := by
  rfl

/-- C8 amended: a bibliography file exists in the workspace if and only
if `bib_entries` was supplied and nonempty; a supplied empty string
behaves exactly as if the field were absent. -/
theorem render_snippet_bib_file_iff_nonempty (env : RenderEnv) (body pe : String)
    (sg : Bool) (passes : Int) (bib : Option String) (ub hw : Bool) :
    (render_snippet env body pe sg passes bib ub hw).bibFileWritten = true ↔
      ∃ s, bib = some s ∧ s ≠ "" := by
  rw [render_snippet_bibFileWritten]
  cases bib with
  | none => simp [pyTruthy]
  | some s => by_cases h : s = "" <;> simp [pyTruthy, h]

/-- C9: two render requests differing only in `sanitize_graphics` and
`hide_warnings` produce identical outcomes — result dictionary,
workspace state, bibliography write and assembled document alike — since
`sanitize_graphics` is never read and `hide_warnings` is forwarded to
`compile_latex`, which ignores it. -/
theorem render_snippet_ignores_sanitize_and_warnings (env : RenderEnv)
    (body pe : String) (sg sg' : Bool) (passes : Int) (bib : Option String)
    (ub hw hw' : Bool) :
    render_snippet env body pe sg passes bib ub hw =
      render_snippet env body pe sg' passes bib ub hw' := rfl

/-- C10: for any nonpositive `passes` value (the public route forwards
the request's `passes` field to `compile_latex` without validating the
`passCount ≥ 1` precondition), the loop body never runs: zero compiler
invocations, zero bibliography invocations, and a success result. -/
theorem compile_latex_nonpositive_passes (env : CompileEnv) (passes : Int)
    (ub hw : Bool) (hp : passes ≤ 0) :
    compile_latex env passes ub hw = ([], { success := true }) := by
  have h : passes.toNat = 0 := by omega
  show compileLoop env ub passes.toNat 0 = _
  rw [h]
  rfl

/-- C10 witness: the theorem instantiated at `passes = 0` and at a
negative value. -/
theorem compile_latex_nonpositive_passes_witness :
    ((0 : Int) ≤ 0 ∧ compile_latex bibPresentEnv 0 false false = ([], { success := true })) ∧
    ((-3 : Int) ≤ 0 ∧ compile_latex bibPresentEnv (-3) true true = ([], { success := true })) :=
  ⟨⟨by decide, compile_latex_nonpositive_passes bibPresentEnv 0 false false (by decide)⟩,
   ⟨by decide, compile_latex_nonpositive_passes bibPresentEnv (-3) true true (by decide)⟩⟩
